import Mathlib

/-!
# Verification of `SerialPortWriter` (src/MultiInput/qt/serialportwriter.cpp)

A shallow embedding of the serial-port worker thread: the three-step
handshake, the steady-state write loop, the payload setter `changeData`,
and the destructor.  The worker's interaction with the outside world
(serial port bytes, the concurrently mutated fields `m_quit` and `data`)
is modelled by an environment of oracles; the worker's behaviour is the
ordered trace of events (port actions, shared-variable accesses annotated
with whether the mutex is held, and emitted Qt signals) it produces.

Loops are given explicit fuel, so each loop function is total and the
case of running out of fuel is reported in the result rather than hidden.
-/

set_option autoImplicit false

namespace SerialPortWriter

/-- One observable event of the worker, in program order.  Port actions and
emitted signals are separate constructors; accesses to the shared fields
`data` (the payload) and `m_quit` (the stop flag) carry a `locked` flag
recording whether the event happens while `m_mutex` is held, and so does the
blocking wait `waitForReadyRead`. -/
inductive Ev where
  /-- `serial.setPortName(m_portName)` -/
  | setPortName (s : String)
  /-- `serial.setBaudRate(r)` -/
  | setBaudRate (r : Nat)
  /-- `serial.open(QIODevice::ReadWrite)` (the attempt, whether or not it succeeds) -/
  | openPort
  /-- `serial->clear()` -/
  | clearPort
  /-- `serial->write((const char*) &send, 1)`: a single handshake probe byte -/
  | probe (b : Nat)
  /-- `serial->waitForReadyRead(ms)`: the blocking wait for response bytes -/
  | waitReady (ms : Nat) (locked : Bool)
  /-- `serial->read((char*) readBuf, 128)`: the handshake expectation read -/
  | readHS
  /-- a read of the shared field `m_quit` -/
  | readQuit (locked : Bool)
  /-- a write of the shared field `m_quit` -/
  | writeQuit (locked : Bool)
  /-- the assignment `data = newData` in `changeData` -/
  | storeData (d : List Nat) (locked : Bool)
  /-- `serial.write(data)`: reads the shared payload and enqueues it on the port -/
  | writePayload (d : List Nat) (locked : Bool)
  /-- `m_mutex.lock()` -/
  | lockAcq
  /-- `m_mutex.unlock()` -/
  | lockRel
  /-- `m_cond.wakeOne()` -/
  | condWake
  /-- `wait()`: join of the worker thread in the destructor -/
  | joinWait
  /-- `serial.readAll()`: discard whatever response bytes arrived -/
  | readAllPort
  /-- `serial.close()` -/
  | closePort
  /-- `emit message(s)` -/
  | message (s : String)
  /-- `emit timeout(s)` -/
  | timeoutN (s : String)
  /-- `emit error(s)` -/
  | errorN (s : String)
  /-- `emit writeComplete()` -/
  | writeComplete
deriving DecidableEq, Repr

/-- The worker's environment.  `quit q` is the value of `m_quit` at its
`q`-th read by the worker (the owner may set it at any time from another
thread); `resp p` is the list of bytes available on the port after the
`p`-th handshake probe (empty = `waitForReadyRead(100)` timed out);
`payload i` is the value of the shared field `data` that the `i`-th write
cycle observes under the mutex (the interleaving with `changeData` is
studied separately in the `Torn` section); `wresp i` is the list of bytes
that arrive within the `i`-th write cycle's 40 ms window (empty = timeout);
`time i` is the wall-clock string `QTime::currentTime().toString()` at the
`i`-th write cycle. -/
structure Env where
  quit : Nat → Bool
  resp : Nat → List Nat
  payload : Nat → List Nat
  wresp : Nat → List Nat
  time : Nat → String

/-- Modelled from the spec: the probe bytes `sync_bytes` are declared in
`serialportwriter.h`, which is absent from the sources; Scenario A of the
spec fixes them to `[0x55, 0x41, 0x0D]`. -/
def sync_bytes : Nat → Nat
  | 0 => 0x55
  | 1 => 0x41
  | _ => 0x0D

/-- Modelled from the spec: the expected response bytes `sync_resp` are
declared in `serialportwriter.h`, which is absent from the sources;
Scenario A of the spec fixes them to `[0xAA, 0x06, 0x0A]`. -/
def sync_resp : Nat → Nat
  | 0 => 0xAA
  | 1 => 0x06
  | _ => 0x0A

/-- `SerialPortWriter::writeAndExpectResponse(serial, send, expect)`.
`resp` is the list of bytes available after the probe (empty when
`waitForReadyRead(100)` returns false).  `serial->read(readBuf, 128)` reads
at most 128 of them; the result is true iff `numRead > 0` and
`readBuf[numRead - 1] == expect`.  Returns the event list and the boolean
result. -/
def writeAndExpectResponse (send expect : Nat) (resp : List Nat) :
    List Ev × Bool :=
  let evs := [Ev.clearPort, Ev.probe send, Ev.waitReady 100 false]
  if resp.isEmpty then
    (evs, false)
  else
    let readBuf := resp.take 128
    let numRead := readBuf.length
    (evs ++ [Ev.readHS],
      decide (numRead > 0) && (readBuf.get? (numRead - 1) == some expect))

/-- Result of the handshake loop `while(!m_quit && !synced) { ... }`:
the events it produced, the next unread index into `env.quit`, the next
unused index into `env.resp`, and `some synced` when the loop exited
normally (`none` when fuel ran out). -/
structure HsOut where
  evs : List Ev
  qF : Nat
  pF : Nat
  exitSynced : Option Bool
deriving DecidableEq, Repr

/-- The handshake loop of `SerialPortWriter::run`:
`while(!m_quit && !synced)` with the three `writeAndExpectResponse` calls.
`q` counts reads of `m_quit` so far, `p` counts probes so far, `synced` is
the local variable.  `&&` short-circuits, so each iteration reads `m_quit`
exactly once, before anything else. -/
def hsLoop (env : Env) : Nat → Nat → Nat → Bool → HsOut
  | 0, q, p, _ => ⟨[], q, p, none⟩
  | fuel+1, q, p, synced =>
    if env.quit q then
      ⟨[Ev.readQuit false], q+1, p, some synced⟩
    else if synced then
      ⟨[Ev.readQuit false], q+1, p, some synced⟩
    else
      let s1 := writeAndExpectResponse (sync_bytes 0) (sync_resp 0) (env.resp p)
      if s1.2 then
        let s2 := writeAndExpectResponse (sync_bytes 1) (sync_resp 1) (env.resp (p+1))
        if s2.2 then
          let s3 := writeAndExpectResponse (sync_bytes 2) (sync_resp 2) (env.resp (p+2))
          if s3.2 then
            let rest := hsLoop env fuel (q+1) (p+3) true
            ⟨Ev.readQuit false :: s1.1 ++ [Ev.message "Handshake stage 1 complete"]
              ++ s2.1 ++ [Ev.message "Handshake stage 2 complete"]
              ++ s3.1 ++ [Ev.message "Handshake stage 3 complete"] ++ rest.evs,
              rest.qF, rest.pF, rest.exitSynced⟩
          else
            let rest := hsLoop env fuel (q+1) (p+3) false
            ⟨Ev.readQuit false :: s1.1 ++ [Ev.message "Handshake stage 1 complete"]
              ++ s2.1 ++ [Ev.message "Handshake stage 2 complete"]
              ++ s3.1 ++ [Ev.timeoutN "Handshake failed at stage 3, retrying..."]
              ++ rest.evs,
              rest.qF, rest.pF, rest.exitSynced⟩
        else
          let rest := hsLoop env fuel (q+1) (p+2) false
          ⟨Ev.readQuit false :: s1.1 ++ [Ev.message "Handshake stage 1 complete"]
            ++ s2.1 ++ [Ev.timeoutN "Handshake failed at stage 2, retrying..."]
            ++ rest.evs,
            rest.qF, rest.pF, rest.exitSynced⟩
      else
        let rest := hsLoop env fuel (q+1) (p+1) false
        ⟨Ev.readQuit false :: s1.1 ++ rest.evs, rest.qF, rest.pF, rest.exitSynced⟩

/-- The body of one steady-state write cycle: lock, `serial.write(data)`,
unlock, `waitForReadyRead(40)`, then either the timeout signal (carrying the
`QTime::currentTime().toString()` timestamp) or `readAll` (discarding the
bytes) plus `writeComplete`. -/
def writeCycleEvs (env : Env) (i : Nat) : List Ev :=
  [Ev.lockAcq, Ev.writePayload (env.payload i) true, Ev.lockRel,
   Ev.waitReady 40 false] ++
  (if (env.wresp i).isEmpty then
    [Ev.timeoutN ("Wait read response timeout " ++ env.time i)]
  else
    [Ev.readAllPort, Ev.writeComplete])

/-- The steady-state loop `while (!m_quit)` of `SerialPortWriter::run`.
`q` counts reads of `m_quit`, `i` counts write cycles.  The boolean result
is true when the loop exited because `m_quit` was read as set (false = out
of fuel). -/
def writeLoop (env : Env) : Nat → Nat → Nat → List Ev × Bool
  | 0, _, _ => ([], false)
  | fuel+1, q, i =>
    if env.quit q then
      ([Ev.readQuit false], true)
    else
      let rest := writeLoop env fuel (q+1) (i+1)
      (Ev.readQuit false :: writeCycleEvs env i ++ rest.1, rest.2)

/-- How a `run` of the worker ended. -/
inductive RunStatus where
  /-- empty port name: `emit error` and return before opening -/
  | configError
  /-- `serial.open` failed: `emit error` and return -/
  | openError
  /-- a loop still running when fuel ran out -/
  | fuelOut
  /-- `m_quit` was observed set and the function returned normally -/
  | stopped
deriving DecidableEq, Repr

/-- The error text of `tr("Can't open %1, error code %2").arg(m_portName).arg(serial.error())`. -/
def openFailMsg (portName : String) (errCode : Nat) : String :=
  "Can't open " ++ portName ++ ", error code " ++ toString errCode

/-- `SerialPortWriter::run()`.  `openOK` is whether `serial.open` succeeds,
`errCode` the `serial.error()` value used in the failure message, `hsFuel`
and `wFuel` bound the two loops.  Returns the event trace and how the run
ended. -/
def run (portName : String) (openOK : Bool) (errCode : Nat) (env : Env)
    (hsFuel wFuel : Nat) : List Ev × RunStatus :=
  if portName = "" then
    ([Ev.errorN "No port name specified"], RunStatus.configError)
  else if !openOK then
    ([Ev.setPortName portName, Ev.setBaudRate 19200, Ev.openPort,
      Ev.errorN (openFailMsg portName errCode)], RunStatus.openError)
  else
    let opened := [Ev.setPortName portName, Ev.setBaudRate 19200, Ev.openPort,
      Ev.message "Serial port opened", Ev.message "Synchronizing hardware"]
    let hs := hsLoop env hsFuel 0 0 false
    match hs.exitSynced with
    | none => (opened ++ hs.evs, RunStatus.fuelOut)
    | some _ =>
      let wl := writeLoop env wFuel hs.qF 0
      if wl.2 then
        (opened ++ hs.evs ++ [Ev.message "Synced successfully"] ++ wl.1
          ++ [Ev.closePort], RunStatus.stopped)
      else
        (opened ++ hs.evs ++ [Ev.message "Synced successfully"] ++ wl.1,
          RunStatus.fuelOut)

/-- `SerialPortWriter::changeData(newData)`: the payload setter, run by the
owner thread. -/
def changeData (newData : List Nat) : List Ev :=
  [Ev.lockAcq, Ev.storeData newData true, Ev.condWake, Ev.lockRel]

/-- `SerialPortWriter::~SerialPortWriter()`: sets `m_quit` under the mutex,
wakes the condition, releases, then joins the thread. -/
def destructorEvs : List Ev :=
  [Ev.lockAcq, Ev.writeQuit true, Ev.condWake, Ev.lockRel, Ev.joinWait]

/-! ### Event classifiers and counters -/

/-- An emitted Qt signal (`message`, `timeout`, `error`, `writeComplete`). -/
def isNotif : Ev → Bool
  | Ev.message _ => true
  | Ev.timeoutN _ => true
  | Ev.errorN _ => true
  | Ev.writeComplete => true
  | _ => false

/-- An `emit error(...)` event. -/
def isErrorN : Ev → Bool
  | Ev.errorN _ => true
  | _ => false

/-- An `emit timeout(...)` event. -/
def isTimeoutEv : Ev → Bool
  | Ev.timeoutN _ => true
  | _ => false

/-- An `emit writeComplete()` event. -/
def isWriteCompleteEv : Ev → Bool
  | Ev.writeComplete => true
  | _ => false

/-- A handshake probe write. -/
def isProbeEv : Ev → Bool
  | Ev.probe _ => true
  | _ => false

/-- A read of the shared `m_quit` field. -/
def isReadQuitEv : Ev → Bool
  | Ev.readQuit _ => true
  | _ => false

/-- A handshake port action: `clear`, the probe write, or the expectation
read.  These are the actions the worker performs only while in a handshake
state. -/
def isHandshakeAct : Ev → Bool
  | Ev.clearPort => true
  | Ev.probe _ => true
  | Ev.readHS => true
  | _ => false

/-- An access (read or write) to the shared payload field `data`. -/
def isPayloadAccess : Ev → Bool
  | Ev.storeData _ _ => true
  | Ev.writePayload _ _ => true
  | _ => false

/-- An access (read or write) to the shared stop flag `m_quit`. -/
def isStopAccess : Ev → Bool
  | Ev.readQuit _ => true
  | Ev.writeQuit _ => true
  | _ => false

/-- A write to the shared stop flag `m_quit`. -/
def isStopWrite : Ev → Bool
  | Ev.writeQuit _ => true
  | _ => false

/-- A blocking wait on the port (`waitForReadyRead`). -/
def isBlockingWait : Ev → Bool
  | Ev.waitReady _ _ => true
  | _ => false

/-- The `locked` annotation of an event (false for events that carry none). -/
def evLocked : Ev → Bool
  | Ev.waitReady _ l => l
  | Ev.readQuit l => l
  | Ev.writeQuit l => l
  | Ev.storeData _ l => l
  | Ev.writePayload _ l => l
  | _ => false

/-- The locking discipline the code actually follows: payload accesses and
stop-flag writes happen under the mutex; blocking waits happen outside it;
the worker's reads of the stop flag happen outside it. -/
def lockDiscipline (e : Ev) : Bool :=
  (!isPayloadAccess e || evLocked e) && (!isStopWrite e || evLocked e) &&
  (!isBlockingWait e || !evLocked e) && (!isReadQuitEv e || !evLocked e)

/-- Number of `m_quit` reads in a trace. -/
def countReadQuit (l : List Ev) : Nat := (l.filter isReadQuitEv).length

/-- Number of handshake probe writes in a trace. -/
def countProbe (l : List Ev) : Nat := (l.filter isProbeEv).length

/-- Number of `emit timeout(...)` events in a trace. -/
def countTimeout (l : List Ev) : Nat := (l.filter isTimeoutEv).length

/-- Number of `emit writeComplete()` events in a trace. -/
def countWriteComplete (l : List Ev) : Nat := (l.filter isWriteCompleteEv).length

/-- Number of emitted signals of any kind in a trace. -/
def countNotif (l : List Ev) : Nat := (l.filter isNotif).length

/-- The shapes of events the handshake loop can produce: unlocked `m_quit`
reads, port probe actions with the 100 ms unlocked wait, and the five
stage-complete / stage-failed signals. -/
def hsEvOK : Ev → Bool
  | Ev.readQuit l => !l
  | Ev.clearPort => true
  | Ev.probe _ => true
  | Ev.waitReady ms l => (ms == 100) && !l
  | Ev.readHS => true
  | Ev.message s =>
    s == "Handshake stage 1 complete" || s == "Handshake stage 2 complete"
      || s == "Handshake stage 3 complete"
  | Ev.timeoutN s =>
    s == "Handshake failed at stage 2, retrying..."
      || s == "Handshake failed at stage 3, retrying..."
  | _ => false

/-- The shapes of events the steady-state write loop can produce: unlocked
`m_quit` reads, the locked payload write, the 40 ms unlocked wait, and the
timeout / write-complete signals. -/
def wlEvOK : Ev → Bool
  | Ev.readQuit l => !l
  | Ev.lockAcq => true
  | Ev.writePayload _ l => l
  | Ev.lockRel => true
  | Ev.waitReady ms l => (ms == 40) && !l
  | Ev.timeoutN _ => true
  | Ev.readAllPort => true
  | Ev.writeComplete => true
  | _ => false

/-! ### Concrete environments for witnesses and counterexamples -/

/-- Responses that satisfy every handshake step: the device answers the
`p`-th probe with exactly the expected byte (spec Scenario A). -/
def respOK : Nat → List Nat := fun p => [sync_resp p]

/-- Scenario A environment: the device cooperates at every step, `m_quit`
is never set, every write cycle gets a response. -/
def envA : Env :=
  ⟨fun _ => false, respOK, fun _ => [1, 2], fun _ => [6], fun _ => "12:00:00"⟩

/-- An environment whose `m_quit` is set from the start. -/
def envQ : Env :=
  ⟨fun _ => true, respOK, fun _ => [1, 2], fun _ => [6], fun _ => "12:00:00"⟩

/-- Scenario B responses: stage 2 times out on the first pass (probe 1),
then the second full pass (probes 2, 3, 4) succeeds. -/
def respB : Nat → List Nat
  | 0 => [0xAA]
  | 1 => []
  | 2 => [0xAA]
  | 3 => [0x06]
  | 4 => [0x0A]
  | _ => []

/-- Scenario B environment. -/
def envB : Env :=
  ⟨fun _ => false, respB, fun _ => [1, 2], fun _ => [6], fun _ => "12:00:00"⟩

/-- An environment where no write-cycle response ever arrives
(spec Scenario E). -/
def envE : Env :=
  ⟨fun _ => false, respOK, fun _ => [1, 2], fun _ => [], fun _ => "12:00:00"⟩

/-! ### Interleaving model of `changeData` against the write loop

The owner thread runs `changeData` (lock, assign `data`, unlock) while the
worker's write loop reads `data` under the same mutex
(`m_mutex.lock(); serial.write(data); m_mutex.unlock();`).  To make "torn
read" expressible, the assignment `data = newData` is split into two
micro-steps: first an arbitrary mixture `mix old new` of the old and new
bytes becomes visible, then the final value.  Both happen while the owner
holds `m_mutex`.  The worker's read can interleave anywhere the lock
allows.  The theorem for C8 shows that no observation ever equals a
mixture: the worker only ever reads the initial payload or the full
argument of a completed `changeData`, and under the lock it reads exactly
the most recent completed one. -/

namespace Torn

/-- The two threads contending for `m_mutex`. -/
inductive Tid where
  | owner
  | worker
deriving DecidableEq, Repr

/-- A configuration of the shared memory and both threads.
`data` is the shared payload field, `lock` who holds `m_mutex`,
`done` the arguments of completed `changeData` calls in order,
`rest` the `changeData` calls still to run, `ophase` the owner's position
inside the current `changeData` (0 = before lock, 1 = lock held,
2 = torn intermediate visible, 3 = final value stored), `wphase` the
worker's position inside one locked section of a write cycle (0 = before
lock, 1 = lock held, 2 = payload read), and `obs` the payload values the
worker has read so far. -/
structure Conf where
  data : List Nat
  lock : Option Tid
  done : List (List Nat)
  rest : List (List Nat)
  ophase : Nat
  wphase : Nat
  obs : List (List Nat)
deriving DecidableEq, Repr

/-- Initial configuration: payload `d0`, lock free, updates `upds` pending. -/
def start (d0 : List Nat) (upds : List (List Nat)) : Conf :=
  ⟨d0, none, [], upds, 0, 0, []⟩

/-- The most recently completed `changeData` argument, or the initial
payload when none has completed. -/
def lastVal (d0 : List Nat) (done : List (List Nat)) : List Nat :=
  done.getLast?.getD d0

/-- One interleaved step.  `mix` is the arbitrary torn intermediate the
owner's non-atomic assignment would expose. -/
inductive Step (mix : List Nat → List Nat → List Nat) : Conf → Conf → Prop where
  /-- owner: `m_mutex.lock()` at the head of `changeData` -/
  | oLock (c : Conf) (v : List Nat) (vs : List (List Nat)) :
      c.lock = none → c.ophase = 0 → c.rest = v :: vs →
      Step mix c { c with lock := some Tid.owner, ophase := 1 }
  /-- owner: first half of the assignment `data = newData` -/
  | oStoreTorn (c : Conf) (v : List Nat) (vs : List (List Nat)) :
      c.ophase = 1 → c.rest = v :: vs →
      Step mix c { c with data := mix c.data v, ophase := 2 }
  /-- owner: second half of the assignment `data = newData` -/
  | oStoreFinal (c : Conf) (v : List Nat) (vs : List (List Nat)) :
      c.ophase = 2 → c.rest = v :: vs →
      Step mix c { c with data := v, ophase := 3 }
  /-- owner: `m_mutex.unlock()` (QMutexLocker release), the call completes -/
  | oUnlock (c : Conf) (v : List Nat) (vs : List (List Nat)) :
      c.ophase = 3 → c.rest = v :: vs →
      Step mix c
        { c with lock := none, ophase := 0, done := c.done ++ [v], rest := vs }
  /-- worker: `m_mutex.lock()` at the head of a write cycle -/
  | wLock (c : Conf) :
      c.lock = none → c.wphase = 0 →
      Step mix c { c with lock := some Tid.worker, wphase := 1 }
  /-- worker: `serial.write(data)` reads the shared payload -/
  | wRead (c : Conf) :
      c.wphase = 1 →
      Step mix c { c with obs := c.obs ++ [c.data], wphase := 2 }
  /-- worker: `m_mutex.unlock()`, ending the cycle's critical section -/
  | wUnlock (c : Conf) :
      c.wphase = 2 →
      Step mix c { c with lock := none, wphase := 0 }

/-- Configurations reachable from `start d0 upds` by interleaved steps. -/
inductive Reachable (d0 : List Nat) (mix : List Nat → List Nat → List Nat)
    (upds : List (List Nat)) : Conf → Prop where
  | base : Reachable d0 mix upds (start d0 upds)
  | step {c c' : Conf} : Reachable d0 mix upds c → Step mix c c' →
      Reachable d0 mix upds c'

/-- The inductive invariant: phases imply lock ownership; outside an
in-progress `changeData` the shared payload equals the most recent
completed value; just before the owner's unlock the payload equals the
pending argument; and every observation is a complete value. -/
def Inv (d0 : List Nat) (c : Conf) : Prop :=
  (c.ophase ≠ 0 → c.lock = some Tid.owner) ∧
  (c.wphase ≠ 0 → c.lock = some Tid.worker) ∧
  (c.ophase = 0 → c.data = lastVal d0 c.done) ∧
  (c.ophase = 3 → ∃ v vs, c.rest = v :: vs ∧ c.data = v) ∧
  (∀ o ∈ c.obs, o = d0 ∨ o ∈ c.done)

/-- A concrete torn mixture (head of the old value, tail of the new one),
used to exercise the model on Scenario D. -/
def mixC : List Nat → List Nat → List Nat :=
  fun a b => a.take 1 ++ b.drop 1

end Torn

/-! ## Helper lemmas -/

/-- Two environments that agree on everything the write loop looks at —
`m_quit`, the payload snapshots, the timestamps, and only *whether* each
response window is empty (not what the bytes are) — give one write-cycle
body identical traces. -/
theorem writeCycleEvs_congr (env env2 : Env) (i : Nat)
    (hp : env.payload = env2.payload) (ht : env.time = env2.time)
    (hw : (env.wresp i).isEmpty = (env2.wresp i).isEmpty) :
    writeCycleEvs env i = writeCycleEvs env2 i := by
  unfold writeCycleEvs
  rw [hp, ht, hw]

/-- The whole write loop never inspects the content of the response bytes:
environments agreeing on `m_quit`, payloads, timestamps and emptiness of
each response window produce identical loop results. -/
theorem wl_noninterference (env env2 : Env)
    (hq : env.quit = env2.quit) (hp : env.payload = env2.payload)
    (ht : env.time = env2.time)
    (hw : ∀ j, (env.wresp j).isEmpty = (env2.wresp j).isEmpty) :
    ∀ (fuel q i : Nat), writeLoop env fuel q i = writeLoop env2 fuel q i := by
  intro fuel
  induction fuel with
  | zero => intro q i; simp [writeLoop]
  | succ n ih =>
    intro q i
    simp only [writeLoop]
    rw [hq]
    split
    · rfl
    · rw [writeCycleEvs_congr env env2 i hp ht (hw i), ih]

/-- The events of `writeAndExpectResponse` are the clear/probe/wait prefix,
with the expectation read appended exactly when bytes arrived. -/
theorem wER_fst (s e : Nat) (r : List Nat) :
    (writeAndExpectResponse s e r).1
      = [Ev.clearPort, Ev.probe s, Ev.waitReady 100 false] ∨
    (writeAndExpectResponse s e r).1
      = [Ev.clearPort, Ev.probe s, Ev.waitReady 100 false, Ev.readHS] := by
  unfold writeAndExpectResponse
  by_cases h : r.isEmpty <;> simp [h]

/-- Every event of `writeAndExpectResponse` is one of its four port
actions. -/
theorem wER_mem (s e : Nat) (r : List Nat) :
    ∀ x ∈ (writeAndExpectResponse s e r).1,
      x = Ev.clearPort ∨ x = Ev.probe s ∨ x = Ev.waitReady 100 false
        ∨ x = Ev.readHS := by
  intro x hx
  rcases wER_fst s e r with h | h <;> rw [h] at hx <;> simp at hx <;> tauto

/-- `writeAndExpectResponse` performs exactly one probe write. -/
theorem wER_countProbe (s e : Nat) (r : List Nat) :
    countProbe (writeAndExpectResponse s e r).1 = 1 := by
  rcases wER_fst s e r with h | h <;>
    simp [countProbe, h, isProbeEv]

/-- `writeAndExpectResponse` never reads `m_quit`. -/
theorem wER_countReadQuit (s e : Nat) (r : List Nat) :
    countReadQuit (writeAndExpectResponse s e r).1 = 0 := by
  rcases wER_fst s e r with h | h <;>
    simp [countReadQuit, h, isReadQuitEv]

/-- `writeAndExpectResponse` emits no signal of any kind. -/
theorem wER_countNotif (s e : Nat) (r : List Nat) :
    countNotif (writeAndExpectResponse s e r).1 = 0 := by
  rcases wER_fst s e r with h | h <;>
    simp [countNotif, h, isNotif]

/-- `writeAndExpectResponse` emits no timeout signal. -/
theorem wER_countTimeout (s e : Nat) (r : List Nat) :
    countTimeout (writeAndExpectResponse s e r).1 = 0 := by
  rcases wER_fst s e r with h | h <;>
    simp [countTimeout, h, isTimeoutEv]

/-- Length of a filtered cons cell. -/
theorem count_filter_cons (p : Ev → Bool) (x : Ev) (l : List Ev) :
    (List.filter p (x :: l)).length
      = (if p x = true then 1 else 0) + (List.filter p l).length := by
  simp only [List.filter_cons]
  split <;> simp [Nat.add_comm]

/-- Length of a filtered append. -/
theorem count_filter_append (p : Ev → Bool) (l1 l2 : List Ev) :
    (List.filter p (l1 ++ l2)).length
      = (List.filter p l1).length + (List.filter p l2).length := by
  simp [List.filter_append]

/-- `countTimeout` of the empty trace. -/
theorem countTimeout_nil : countTimeout [] = 0 := rfl

/-- `countNotif` of the empty trace. -/
theorem countNotif_nil : countNotif [] = 0 := rfl

/-- `countWriteComplete` of the empty trace. -/
theorem countWriteComplete_nil : countWriteComplete [] = 0 := rfl

/-- `countTimeout` over a cons cell. -/
theorem countTimeout_cons (x : Ev) (l : List Ev) :
    countTimeout (x :: l)
      = (if isTimeoutEv x = true then 1 else 0) + countTimeout l :=
  count_filter_cons isTimeoutEv x l

/-- `countTimeout` over an append. -/
theorem countTimeout_append (l1 l2 : List Ev) :
    countTimeout (l1 ++ l2) = countTimeout l1 + countTimeout l2 :=
  count_filter_append isTimeoutEv l1 l2

/-- `countNotif` over a cons cell. -/
theorem countNotif_cons (x : Ev) (l : List Ev) :
    countNotif (x :: l) = (if isNotif x = true then 1 else 0) + countNotif l :=
  count_filter_cons isNotif x l

/-- `countNotif` over an append. -/
theorem countNotif_append (l1 l2 : List Ev) :
    countNotif (l1 ++ l2) = countNotif l1 + countNotif l2 :=
  count_filter_append isNotif l1 l2

/-- `countWriteComplete` over a cons cell. -/
theorem countWriteComplete_cons (x : Ev) (l : List Ev) :
    countWriteComplete (x :: l)
      = (if isWriteCompleteEv x = true then 1 else 0) + countWriteComplete l :=
  count_filter_cons isWriteCompleteEv x l

/-- `countWriteComplete` over an append. -/
theorem countWriteComplete_append (l1 l2 : List Ev) :
    countWriteComplete (l1 ++ l2)
      = countWriteComplete l1 + countWriteComplete l2 :=
  count_filter_append isWriteCompleteEv l1 l2

/-- Pointwise composition for "every event of a trace satisfies `p`". -/
theorem all_ok_append {p : Ev → Bool} {l1 l2 : List Ev}
    (h1 : ∀ e ∈ l1, p e = true) (h2 : ∀ e ∈ l2, p e = true) :
    ∀ e ∈ l1 ++ l2, p e = true := by
  intro e he
  rcases List.mem_append.mp he with h | h
  exacts [h1 e h, h2 e h]

/-- Pointwise composition for a cons cell. -/
theorem all_ok_cons {p : Ev → Bool} {x : Ev} {l : List Ev}
    (hx : p x = true) (hl : ∀ e ∈ l, p e = true) :
    ∀ e ∈ x :: l, p e = true := by
  intro e he
  rcases List.mem_cons.mp he with h | h
  · exact h ▸ hx
  · exact hl e h

/-- Every event of `writeAndExpectResponse` is a legitimate handshake
event. -/
theorem wER_hsOK (s e : Nat) (r : List Nat) :
    ∀ x ∈ (writeAndExpectResponse s e r).1, hsEvOK x = true := by
  intro x hx
  rcases wER_mem s e r x hx with h | h | h | h <;> subst h <;> rfl

/-- Every event the handshake loop produces is a legitimate handshake
event: unlocked `m_quit` reads, probe port actions, the stage signals. -/
theorem hs_all_ok (env : Env) :
    ∀ (fuel q p : Nat) (b : Bool), ∀ e ∈ (hsLoop env fuel q p b).evs,
      hsEvOK e = true := by
  intro fuel
  induction fuel with
  | zero =>
    intro q p b e he
    simp [hsLoop] at he
  | succ n ih =>
    intro q p b
    simp only [hsLoop]
    split
    · exact all_ok_cons rfl (by intro e he; simp at he)
    · split
      · exact all_ok_cons rfl (by intro e he; simp at he)
      · split
        · split
          · split
            · exact all_ok_cons rfl
                (all_ok_append (all_ok_append (all_ok_append (all_ok_append
                  (all_ok_append (all_ok_append (wER_hsOK _ _ _)
                    (by intro e he; simp at he; subst he; decide))
                    (wER_hsOK _ _ _))
                    (by intro e he; simp at he; subst he; decide))
                    (wER_hsOK _ _ _))
                    (by intro e he; simp at he; subst he; decide))
                  (ih _ _ _))
            · exact all_ok_cons rfl
                (all_ok_append (all_ok_append (all_ok_append (all_ok_append
                  (all_ok_append (all_ok_append (wER_hsOK _ _ _)
                    (by intro e he; simp at he; subst he; decide))
                    (wER_hsOK _ _ _))
                    (by intro e he; simp at he; subst he; decide))
                    (wER_hsOK _ _ _))
                    (by intro e he; simp at he; subst he; decide))
                  (ih _ _ _))
          · exact all_ok_cons rfl
              (all_ok_append (all_ok_append (all_ok_append
                (all_ok_append (wER_hsOK _ _ _)
                  (by intro e he; simp at he; subst he; decide))
                  (wER_hsOK _ _ _))
                  (by intro e he; simp at he; subst he; decide))
                (ih _ _ _))
        · exact all_ok_cons rfl (all_ok_append (wER_hsOK _ _ _) (ih _ _ _))

/-- Every event of one write-cycle body is a legitimate write-loop
event. -/
theorem writeCycleEvs_ok (env : Env) (i : Nat) :
    ∀ e ∈ writeCycleEvs env i, wlEvOK e = true := by
  unfold writeCycleEvs
  split <;> intro e he <;> simp at he <;>
    rcases he with rfl | rfl | rfl | rfl | he <;>
      first
        | rfl
        | (rcases he with rfl | rfl <;> rfl)

/-- Every event the steady-state write loop produces is a legitimate
write-loop event. -/
theorem wl_all_ok (env : Env) :
    ∀ (fuel q i : Nat), ∀ e ∈ (writeLoop env fuel q i).1, wlEvOK e = true := by
  intro fuel
  induction fuel with
  | zero =>
    intro q i e he
    simp [writeLoop] at he
  | succ n ih =>
    intro q i
    simp only [writeLoop]
    split
    · exact all_ok_cons rfl (by intro e he; simp at he)
    · exact all_ok_cons rfl
        (all_ok_append (writeCycleEvs_ok env i) (ih _ _))

/-! ## C1: the expectation check inspects only the last byte read -/

/-- C1: for every handshake step, the probe succeeds if and only if at
least one response byte arrives within the timeout (`resp ≠ []`) and the
last byte of whatever was read (`serial->read` caps the read at 128 bytes)
equals that step's expected response byte — regardless of how many bytes
preceded it. -/
theorem c1_expect_last_byte (send expect : Nat) (resp : List Nat) :
    (writeAndExpectResponse send expect resp).2 = true ↔
      resp ≠ [] ∧ (resp.take 128).getLast? = some expect := by
  unfold writeAndExpectResponse
  by_cases h : resp.isEmpty
  · simp [h, List.isEmpty_iff.mp h]
  · have hne : resp ≠ [] := by simpa [List.isEmpty_iff] using h
    have hlen : 0 < (resp.take 128).length := by
      simp [List.length_take]
      exact List.length_pos.mpr hne
    simp [h, hne, hlen, List.getLast?_eq_getElem?]
    intro _
    exact List.length_pos.mpr hne

/-- A handshake event is never the "Synced successfully" message. -/
theorem hsEvOK_not_sync (e : Ev) (h : hsEvOK e = true) :
    e ≠ Ev.message "Synced successfully" := by
  intro heq
  subst heq
  exact absurd h (by decide)

/-- A write-loop event is never a handshake port action. -/
theorem wlEvOK_no_hs (e : Ev) (h : wlEvOK e = true) :
    isHandshakeAct e = false := by
  cases e <;> simp_all [wlEvOK, isHandshakeAct]

/-- A write-loop event is never an `emit message(...)`. -/
theorem wlEvOK_not_message (e : Ev) (h : wlEvOK e = true) :
    (∀ s, e ≠ Ev.message s) := by
  cases e <;> simp_all [wlEvOK]

/-- If `a` occurs in neither `A` nor `B`, the only way to split
`A ++ a :: B` around an occurrence of `a` is at that occurrence. -/
theorem mem_split_unique {α : Type} {a : α} :
    ∀ {A B pre post : List α}, a ∉ A → a ∉ B →
      A ++ a :: B = pre ++ a :: post → pre = A ∧ post = B := by
  intro A
  induction A with
  | nil =>
    intro B pre post hA hB h
    cases pre with
    | nil =>
      simp at h
      exact ⟨rfl, h.symm⟩
    | cons x xs =>
      simp at h
      obtain ⟨rfl, hB2⟩ := h
      exact absurd (by simp [hB2]) hB
  | cons x xs ih =>
    intro B pre post hA hB h
    cases pre with
    | nil =>
      simp at h
      obtain ⟨rfl, _⟩ := h
      exact absurd (List.mem_cons_self _ _) hA
    | cons y ys =>
      simp at h
      obtain ⟨rfl, h2⟩ := h
      have hA2 : a ∉ xs := fun hm => hA (List.mem_cons_of_mem _ hm)
      obtain ⟨h3, h4⟩ := ih hA2 hB h2
      exact ⟨by rw [h3], h4⟩

/-! ## C2: when is the stop flag checked during the handshake -/

/-- When an iteration of the handshake loop reads `m_quit` as set, the loop
exits at once: one `m_quit` read, no port action, no signal. -/
theorem hs_quit_exit (env : Env) (fuel q p : Nat) (b : Bool)
    (h : env.quit q = true) :
    hsLoop env (fuel+1) q p b = ⟨[Ev.readQuit false], q+1, p, some b⟩ := by
  simp [hsLoop, h]

/-- The handshake loop reads `m_quit` once per full pass, and a pass
performs up to three probe steps, so probes are bounded by three per
read — not one read per step. -/
theorem hs_probe_bound (env : Env) :
    ∀ (fuel q p : Nat) (b : Bool),
      countProbe (hsLoop env fuel q p b).evs
        ≤ 3 * countReadQuit (hsLoop env fuel q p b).evs := by
  intro fuel
  induction fuel with
  | zero =>
    intro q p b
    simp [hsLoop, countProbe, countReadQuit]
  | succ n ih =>
    intro q p b
    simp only [hsLoop]
    split
    · simp [countProbe, countReadQuit, count_filter_cons, isProbeEv, isReadQuitEv]
    · split
      · simp [countProbe, countReadQuit, count_filter_cons, isProbeEv, isReadQuitEv]
      · split
        · split
          · split
            · have h1 := wER_countProbe (sync_bytes 0) (sync_resp 0) (env.resp p)
              have h2 := wER_countProbe (sync_bytes 1) (sync_resp 1) (env.resp (p+1))
              have h3 := wER_countProbe (sync_bytes 2) (sync_resp 2) (env.resp (p+2))
              have g1 := wER_countReadQuit (sync_bytes 0) (sync_resp 0) (env.resp p)
              have g2 := wER_countReadQuit (sync_bytes 1) (sync_resp 1) (env.resp (p+1))
              have g3 := wER_countReadQuit (sync_bytes 2) (sync_resp 2) (env.resp (p+2))
              have hr := ih (q+1) (p+3) true
              simp only [countProbe, countReadQuit, count_filter_cons,
                count_filter_append, isProbeEv, isReadQuitEv] at *
              simp at *
              omega
            · have h1 := wER_countProbe (sync_bytes 0) (sync_resp 0) (env.resp p)
              have h2 := wER_countProbe (sync_bytes 1) (sync_resp 1) (env.resp (p+1))
              have h3 := wER_countProbe (sync_bytes 2) (sync_resp 2) (env.resp (p+2))
              have g1 := wER_countReadQuit (sync_bytes 0) (sync_resp 0) (env.resp p)
              have g2 := wER_countReadQuit (sync_bytes 1) (sync_resp 1) (env.resp (p+1))
              have g3 := wER_countReadQuit (sync_bytes 2) (sync_resp 2) (env.resp (p+2))
              have hr := ih (q+1) (p+3) false
              simp only [countProbe, countReadQuit, count_filter_cons,
                count_filter_append, isProbeEv, isReadQuitEv] at *
              simp at *
              omega
          · have h1 := wER_countProbe (sync_bytes 0) (sync_resp 0) (env.resp p)
            have h2 := wER_countProbe (sync_bytes 1) (sync_resp 1) (env.resp (p+1))
            have g1 := wER_countReadQuit (sync_bytes 0) (sync_resp 0) (env.resp p)
            have g2 := wER_countReadQuit (sync_bytes 1) (sync_resp 1) (env.resp (p+1))
            have hr := ih (q+1) (p+2) false
            simp only [countProbe, countReadQuit, count_filter_cons,
              count_filter_append, isProbeEv, isReadQuitEv] at *
            simp at *
            omega
        · have h1 := wER_countProbe (sync_bytes 0) (sync_resp 0) (env.resp p)
          have g1 := wER_countReadQuit (sync_bytes 0) (sync_resp 0) (env.resp p)
          have hr := ih (q+1) (p+1) false
          simp only [countProbe, countReadQuit, count_filter_cons,
            count_filter_append, isProbeEv, isReadQuitEv] at *
          simp at *
          omega

/-- When `m_quit` is set throughout, the whole run is: configure and open
the port, two info messages, one handshake `m_quit` read, the unconditional
"Synced successfully" message, one write-loop `m_quit` read, close. -/
theorem run_quit_trace (pn : String) (ec : Nat) (env : Env) (f1 f2 : Nat)
    (hpn : pn ≠ "") (hq : ∀ i, env.quit i = true) :
    (run pn true ec env (f1+1) (f2+1)).1
      = [Ev.setPortName pn, Ev.setBaudRate 19200, Ev.openPort,
         Ev.message "Serial port opened", Ev.message "Synchronizing hardware",
         Ev.readQuit false, Ev.message "Synced successfully",
         Ev.readQuit false, Ev.closePort] := by
  have h1 : hsLoop env (f1+1) 0 0 false = ⟨[Ev.readQuit false], 1, 0, some false⟩ :=
    hs_quit_exit env f1 0 0 false (hq 0)
  have h2 : writeLoop env (f2+1) 1 0 = ([Ev.readQuit false], true) := by
    simp [writeLoop, hq 1]
  simp [run, hpn, h1, h2]

/-- C2 is false on the code, in both halves.  First half: in a fully
successful handshake (environment `envA`) the loop performs three probe
steps but reads `m_quit` only twice (at the two pass boundaries), so the
stop flag is not checked before each handshake step — steps 2 and 3 run
without a check.  Second half: with `m_quit` set from the start (`envQ`),
the handshake loop does exit on the flag, but the worker still emits the
"Synced successfully" notification afterwards, so it does not exit the
phase without further notifications. -/
theorem c2_counterexample :
    (countProbe (hsLoop envA 2 0 0 false).evs = 3 ∧
     countReadQuit (hsLoop envA 2 0 0 false).evs = 2 ∧
     ¬ countProbe (hsLoop envA 2 0 0 false).evs
         ≤ countReadQuit (hsLoop envA 2 0 0 false).evs) ∧
    (run "COM1" true 0 envQ 1 1).1
      = [Ev.setPortName "COM1", Ev.setBaudRate 19200, Ev.openPort,
         Ev.message "Serial port opened", Ev.message "Synchronizing hardware",
         Ev.readQuit false, Ev.message "Synced successfully",
         Ev.readQuit false, Ev.closePort] := by
  exact ⟨⟨by decide, by decide, by decide⟩, by rfl⟩

/-- C2 amended: the StopFlag is checked once per handshake pass (at the
loop head, before step 1 only), so a pass performs up to three probe steps
per check; when the flag is read as set the loop exits immediately with no
further events of its own, but the worker then still emits the
"Synced successfully" message before the write loop's own StopFlag
check. -/
theorem c2_amended :
    (∀ (env : Env) (fuel q p : Nat) (b : Bool), env.quit q = true →
      hsLoop env (fuel+1) q p b = ⟨[Ev.readQuit false], q+1, p, some b⟩) ∧
    (∀ (env : Env) (fuel q p : Nat) (b : Bool),
      countProbe (hsLoop env fuel q p b).evs
        ≤ 3 * countReadQuit (hsLoop env fuel q p b).evs) ∧
    (∀ (pn : String) (ec : Nat) (env : Env) (f1 f2 : Nat), pn ≠ "" →
      (∀ i, env.quit i = true) →
      (run pn true ec env (f1+1) (f2+1)).1
        = [Ev.setPortName pn, Ev.setBaudRate 19200, Ev.openPort,
           Ev.message "Serial port opened", Ev.message "Synchronizing hardware",
           Ev.readQuit false, Ev.message "Synced successfully",
           Ev.readQuit false, Ev.closePort]) :=
  ⟨fun env fuel q p b h => hs_quit_exit env fuel q p b h,
   fun env fuel q p b => hs_probe_bound env fuel q p b,
   fun pn ec env f1 f2 hpn hq => run_quit_trace pn ec env f1 f2 hpn hq⟩

/-- Witness for C2 amended at concrete inputs: `envQ` has the flag set, so
a one-fuel handshake loop exits with just the `m_quit` read, and the whole
run of `envQ` produces exactly the abort trace ending in
"Synced successfully" before close. -/
theorem c2_amended_witness :
    hsLoop envQ (0+1) 5 7 false = ⟨[Ev.readQuit false], 5+1, 7, some false⟩ ∧
    (run "COM1" true 0 envQ (0+1) (0+1)).1
      = [Ev.setPortName "COM1", Ev.setBaudRate 19200, Ev.openPort,
         Ev.message "Serial port opened", Ev.message "Synchronizing hardware",
         Ev.readQuit false, Ev.message "Synced successfully",
         Ev.readQuit false, Ev.closePort] :=
  ⟨c2_amended.1 envQ 0 5 7 false rfl,
   c2_amended.2.2 "COM1" 0 envQ 0 0 (by decide) (fun _ => rfl)⟩

/-! ## C3: stage-2/3 failure restarts the whole sequence with one timeout
signal -/

/-- C3: when step 2 (respectively step 3) fails after the earlier steps
succeeded, the pass ends with exactly one timeout notification naming the
failed stage, and the loop continues as `hsLoop … false` — the same loop
re-entered with `synced` still false, whose next pass by definition starts
at step 1 (never at the failed step). -/
theorem c3_retry_from_step1 :
    (∀ (env : Env) (fuel q p : Nat),
      env.quit q = false →
      (writeAndExpectResponse (sync_bytes 0) (sync_resp 0) (env.resp p)).2 = true →
      (writeAndExpectResponse (sync_bytes 1) (sync_resp 1) (env.resp (p+1))).2 = false →
      hsLoop env (fuel+1) q p false
        = ⟨Ev.readQuit false
             :: (writeAndExpectResponse (sync_bytes 0) (sync_resp 0) (env.resp p)).1
             ++ [Ev.message "Handshake stage 1 complete"]
             ++ (writeAndExpectResponse (sync_bytes 1) (sync_resp 1) (env.resp (p+1))).1
             ++ [Ev.timeoutN "Handshake failed at stage 2, retrying..."]
             ++ (hsLoop env fuel (q+1) (p+2) false).evs,
           (hsLoop env fuel (q+1) (p+2) false).qF,
           (hsLoop env fuel (q+1) (p+2) false).pF,
           (hsLoop env fuel (q+1) (p+2) false).exitSynced⟩ ∧
      countTimeout (Ev.readQuit false
             :: (writeAndExpectResponse (sync_bytes 0) (sync_resp 0) (env.resp p)).1
             ++ [Ev.message "Handshake stage 1 complete"]
             ++ (writeAndExpectResponse (sync_bytes 1) (sync_resp 1) (env.resp (p+1))).1
             ++ [Ev.timeoutN "Handshake failed at stage 2, retrying..."]) = 1) ∧
    (∀ (env : Env) (fuel q p : Nat),
      env.quit q = false →
      (writeAndExpectResponse (sync_bytes 0) (sync_resp 0) (env.resp p)).2 = true →
      (writeAndExpectResponse (sync_bytes 1) (sync_resp 1) (env.resp (p+1))).2 = true →
      (writeAndExpectResponse (sync_bytes 2) (sync_resp 2) (env.resp (p+2))).2 = false →
      hsLoop env (fuel+1) q p false
        = ⟨Ev.readQuit false
             :: (writeAndExpectResponse (sync_bytes 0) (sync_resp 0) (env.resp p)).1
             ++ [Ev.message "Handshake stage 1 complete"]
             ++ (writeAndExpectResponse (sync_bytes 1) (sync_resp 1) (env.resp (p+1))).1
             ++ [Ev.message "Handshake stage 2 complete"]
             ++ (writeAndExpectResponse (sync_bytes 2) (sync_resp 2) (env.resp (p+2))).1
             ++ [Ev.timeoutN "Handshake failed at stage 3, retrying..."]
             ++ (hsLoop env fuel (q+1) (p+3) false).evs,
           (hsLoop env fuel (q+1) (p+3) false).qF,
           (hsLoop env fuel (q+1) (p+3) false).pF,
           (hsLoop env fuel (q+1) (p+3) false).exitSynced⟩ ∧
      countTimeout (Ev.readQuit false
             :: (writeAndExpectResponse (sync_bytes 0) (sync_resp 0) (env.resp p)).1
             ++ [Ev.message "Handshake stage 1 complete"]
             ++ (writeAndExpectResponse (sync_bytes 1) (sync_resp 1) (env.resp (p+1))).1
             ++ [Ev.message "Handshake stage 2 complete"]
             ++ (writeAndExpectResponse (sync_bytes 2) (sync_resp 2) (env.resp (p+2))).1
             ++ [Ev.timeoutN "Handshake failed at stage 3, retrying..."]) = 1) := by
  constructor
  · intro env fuel q p hq h1 h2
    constructor
    · simp [hsLoop, hq, h1, h2]
    · have t1 := wER_countTimeout (sync_bytes 0) (sync_resp 0) (env.resp p)
      have t2 := wER_countTimeout (sync_bytes 1) (sync_resp 1) (env.resp (p+1))
      simp [countTimeout_cons, countTimeout_append, countTimeout_nil, t1, t2, isTimeoutEv]
  · intro env fuel q p hq h1 h2 h3
    constructor
    · simp [hsLoop, hq, h1, h2, h3]
    · have t1 := wER_countTimeout (sync_bytes 0) (sync_resp 0) (env.resp p)
      have t2 := wER_countTimeout (sync_bytes 1) (sync_resp 1) (env.resp (p+1))
      have t3 := wER_countTimeout (sync_bytes 2) (sync_resp 2) (env.resp (p+2))
      simp [countTimeout_cons, countTimeout_append, countTimeout_nil, t1, t2, t3, isTimeoutEv]

/-- Witness for C3 at Scenario B (`envB`: stage 2 times out on the first
pass): the failing pass contributes exactly one timeout signal. -/
theorem c3_witness : countTimeout (hsLoop envB (1+1) 0 0 false).evs = 1 := by
  rw [(c3_retry_from_step1.1 envB 1 0 0 rfl (by decide) (by decide)).1]
  decide

/-! ## C4: step-1 failure is silent, every other failure is reported -/

/-- An environment whose device never answers any probe: step 1 fails on
every pass. -/
def envF : Env :=
  ⟨fun _ => false, fun _ => [], fun _ => [1, 2], fun _ => [6], fun _ => "12:00:00"⟩

/-- C4: when step 1 fails the loop retries immediately — the pass consists
of the `m_quit` read and the probe port actions only and emits no
notification of any kind — and this is the only silent failure: a stage-2
or stage-3 failure emits its timeout signal, every executed write cycle
emits exactly one signal (timeout or write-complete), and a failed open
emits the fatal error signal. -/
theorem c4_step1_silent :
    (∀ (env : Env) (fuel q p : Nat),
      env.quit q = false →
      (writeAndExpectResponse (sync_bytes 0) (sync_resp 0) (env.resp p)).2 = false →
      hsLoop env (fuel+1) q p false
        = ⟨Ev.readQuit false
             :: (writeAndExpectResponse (sync_bytes 0) (sync_resp 0) (env.resp p)).1
             ++ (hsLoop env fuel (q+1) (p+1) false).evs,
           (hsLoop env fuel (q+1) (p+1) false).qF,
           (hsLoop env fuel (q+1) (p+1) false).pF,
           (hsLoop env fuel (q+1) (p+1) false).exitSynced⟩ ∧
      countNotif (Ev.readQuit false
             :: (writeAndExpectResponse (sync_bytes 0) (sync_resp 0) (env.resp p)).1)
        = 0) ∧
    (∀ (env : Env) (fuel q p : Nat),
      env.quit q = false →
      (writeAndExpectResponse (sync_bytes 0) (sync_resp 0) (env.resp p)).2 = true →
      (writeAndExpectResponse (sync_bytes 1) (sync_resp 1) (env.resp (p+1))).2 = false →
      Ev.timeoutN "Handshake failed at stage 2, retrying..."
        ∈ (hsLoop env (fuel+1) q p false).evs) ∧
    (∀ (env : Env) (fuel q p : Nat),
      env.quit q = false →
      (writeAndExpectResponse (sync_bytes 0) (sync_resp 0) (env.resp p)).2 = true →
      (writeAndExpectResponse (sync_bytes 1) (sync_resp 1) (env.resp (p+1))).2 = true →
      (writeAndExpectResponse (sync_bytes 2) (sync_resp 2) (env.resp (p+2))).2 = false →
      Ev.timeoutN "Handshake failed at stage 3, retrying..."
        ∈ (hsLoop env (fuel+1) q p false).evs) ∧
    (∀ (env : Env) (i : Nat), countNotif (writeCycleEvs env i) = 1) ∧
    (∀ (pn : String) (ec : Nat) (env : Env) (f1 f2 : Nat), pn ≠ "" →
      run pn false ec env f1 f2
        = ([Ev.setPortName pn, Ev.setBaudRate 19200, Ev.openPort,
            Ev.errorN (openFailMsg pn ec)], RunStatus.openError)) := by
  refine ⟨?_, ?_, ?_, ?_, ?_⟩
  · intro env fuel q p hq h1
    constructor
    · simp [hsLoop, hq, h1]
    · have t1 := wER_countNotif (sync_bytes 0) (sync_resp 0) (env.resp p)
      simp [countNotif_cons, countNotif_append, countNotif_nil, t1, isNotif]
  · intro env fuel q p hq h1 h2
    simp [hsLoop, hq, h1, h2]
  · intro env fuel q p hq h1 h2 h3
    simp [hsLoop, hq, h1, h2, h3]
  · intro env i
    unfold writeCycleEvs
    split <;>
      simp [countNotif_cons, countNotif_append, countNotif_nil, isNotif]
  · intro pn ec env f1 f2 hpn
    simp [run, hpn]

/-- Witness for C4: with a mute device (`envF`) the whole failing pass is
silent, and a failed open on a named port yields exactly the single fatal
error trace. -/
theorem c4_witness :
    countNotif (Ev.readQuit false
        :: (writeAndExpectResponse (sync_bytes 0) (sync_resp 0) (envF.resp 0)).1)
      = 0 ∧
    run "COM1" false 7 envF 1 1
      = ([Ev.setPortName "COM1", Ev.setBaudRate 19200, Ev.openPort,
          Ev.errorN (openFailMsg "COM1" 7)], RunStatus.openError) :=
  ⟨(c4_step1_silent.1 envF 0 0 0 rfl (by decide)).2,
   c4_step1_silent.2.2.2.2 "COM1" 7 envF 1 1 (by decide)⟩

/-! ## C5: empty port identifier -/

/-- C5: if the port identifier is the empty string, `run` emits exactly one
notification, which is the fatal `error` signal, and terminates with
`configError` without ever attempting to open the port. -/
theorem c5_empty_port (ok : Bool) (ec : Nat) (env : Env) (f1 f2 : Nat) :
    run "" ok ec env f1 f2
        = ([Ev.errorN "No port name specified"], RunStatus.configError) ∧
    countNotif (run "" ok ec env f1 f2).1 = 1 ∧
    isErrorN (Ev.errorN "No port name specified") = true ∧
    Ev.openPort ∉ (run "" ok ec env f1 f2).1 := by
  refine ⟨?_, ?_, rfl, ?_⟩ <;> simp [run, countNotif, isNotif]

/-! ## C6: the steady-state write cycle -/

/-- C6: every write cycle whose `m_quit` read is false writes the current
payload snapshot and waits 40 ms; if no bytes arrive the cycle's events end
in exactly one timeout signal carrying the timestamp, otherwise the bytes
are discarded (`readAll`) and the cycle ends in exactly one write-complete
signal; either way the loop recurses into the next cycle; and the loop
never inspects the content of arrived bytes (environments differing only in
the content of non-empty response windows produce identical traces). -/
theorem c6_write_cycle :
    (∀ (env : Env) (fuel q i : Nat), env.quit q = false →
      writeLoop env (fuel+1) q i
        = (Ev.readQuit false :: writeCycleEvs env i
             ++ (writeLoop env fuel (q+1) (i+1)).1,
           (writeLoop env fuel (q+1) (i+1)).2)) ∧
    (∀ (env : Env) (i : Nat), (env.wresp i).isEmpty = true →
      writeCycleEvs env i
        = [Ev.lockAcq, Ev.writePayload (env.payload i) true, Ev.lockRel,
           Ev.waitReady 40 false,
           Ev.timeoutN ("Wait read response timeout " ++ env.time i)]) ∧
    (∀ (env : Env) (i : Nat), (env.wresp i).isEmpty = false →
      writeCycleEvs env i
        = [Ev.lockAcq, Ev.writePayload (env.payload i) true, Ev.lockRel,
           Ev.waitReady 40 false, Ev.readAllPort, Ev.writeComplete]) ∧
    (∀ (env : Env) (i : Nat),
      countTimeout (writeCycleEvs env i)
          = (if (env.wresp i).isEmpty then 1 else 0) ∧
      countWriteComplete (writeCycleEvs env i)
          = (if (env.wresp i).isEmpty then 0 else 1)) ∧
    (∀ (env env2 : Env),
      env.quit = env2.quit → env.payload = env2.payload →
      env.time = env2.time →
      (∀ j, (env.wresp j).isEmpty = (env2.wresp j).isEmpty) →
      ∀ (fuel q i : Nat), writeLoop env fuel q i = writeLoop env2 fuel q i) := by
  refine ⟨?_, ?_, ?_, ?_, ?_⟩
  · intro env fuel q i h
    simp [writeLoop, h]
  · intro env i h
    unfold writeCycleEvs
    simp [h]
  · intro env i h
    unfold writeCycleEvs
    simp [h]
  · intro env i
    unfold writeCycleEvs
    split <;>
      simp_all [countTimeout_cons, countTimeout_append, countTimeout_nil,
        countWriteComplete_cons, countWriteComplete_append,
        countWriteComplete_nil, isTimeoutEv, isWriteCompleteEv]
  · intro env env2 hq hp ht hw fuel q i
    exact wl_noninterference env env2 hq hp ht hw fuel q i

/-- Witness for C6 at concrete inputs: one cycle of `envA` (a response
arrives: write-complete) and the timed-out cycle body of `envE` (no
response: timeout signal with timestamp). -/
theorem c6_witness :
    writeLoop envA (0+1) 0 0
      = (Ev.readQuit false :: writeCycleEvs envA 0
           ++ (writeLoop envA 0 (0+1) (0+1)).1,
         (writeLoop envA 0 (0+1) (0+1)).2) ∧
    writeCycleEvs envE 0
      = [Ev.lockAcq, Ev.writePayload (envE.payload 0) true, Ev.lockRel,
         Ev.waitReady 40 false,
         Ev.timeoutN ("Wait read response timeout " ++ envE.time 0)] :=
  ⟨c6_write_cycle.1 envA 0 0 0 rfl, c6_write_cycle.2.1 envE 0 rfl⟩

/-! ## C7: no handshake action after sync -/

/-- The full trace of a run that got past opening the port: the setup and
info events, the handshake loop's events, and — only if the handshake loop
exited (fuel permitting) — the "Synced successfully" message followed by
the write loop's events and, if the write loop exited on `m_quit`, the
close. -/
theorem run_shape (pn : String) (ec : Nat) (env : Env) (f1 f2 : Nat)
    (hpn : pn ≠ "") :
    (run pn true ec env f1 f2).1
      = ([Ev.setPortName pn, Ev.setBaudRate 19200, Ev.openPort,
          Ev.message "Serial port opened", Ev.message "Synchronizing hardware"]
          ++ (hsLoop env f1 0 0 false).evs)
        ++ (match (hsLoop env f1 0 0 false).exitSynced with
            | none => []
            | some _ =>
              Ev.message "Synced successfully"
                :: ((writeLoop env f2 (hsLoop env f1 0 0 false).qF 0).1
                  ++ (if (writeLoop env f2 (hsLoop env f1 0 0 false).qF 0).2 then
                        [Ev.closePort]
                      else []))) := by
  cases hsync : (hsLoop env f1 0 0 false).exitSynced with
  | none => simp [run, hpn, hsync]
  | some b =>
    cases hwl : (writeLoop env f2 (hsLoop env f1 0 0 false).qF 0).2 with
    | false => simp [run, hpn, hsync, hwl]
    | true => simp [run, hpn, hsync, hwl]

/-- The "Synced successfully" message never occurs in the pre-sync part of
the trace (setup, info messages, handshake loop events). -/
theorem sync_msg_not_before (env : Env) (pn : String) (f1 : Nat) :
    Ev.message "Synced successfully"
      ∉ ([Ev.setPortName pn, Ev.setBaudRate 19200, Ev.openPort,
          Ev.message "Serial port opened", Ev.message "Synchronizing hardware"]
          ++ (hsLoop env f1 0 0 false).evs) := by
  intro hm
  rcases List.mem_append.mp hm with h1 | h2
  · simp at h1
  · exact hsEvOK_not_sync _ (hs_all_ok env f1 0 0 false _ h2) rfl

/-- The "Synced successfully" message never occurs in the post-sync part of
the trace (write loop events and the close). -/
theorem sync_msg_not_after (env : Env) (f2 q : Nat) (tl : List Ev)
    (htl : Ev.message "Synced successfully" ∉ tl) :
    Ev.message "Synced successfully"
      ∉ (writeLoop env f2 q 0).1 ++ tl := by
  intro hm
  rcases List.mem_append.mp hm with h1 | h2
  · exact wlEvOK_not_message _ (wl_all_ok env f2 q 0 _ h1) _ rfl
  · exact htl h2

/-- C7: once the run has emitted the "Synced successfully" message (the
transition out of the handshake states), no handshake action — port clear,
probe write, or expectation read — ever occurs again in the remainder of
the trace. -/
theorem c7_no_handshake_after_sync (pn : String) (ok : Bool) (ec : Nat)
    (env : Env) (f1 f2 : Nat) (pre post : List Ev)
    (h : (run pn ok ec env f1 f2).1
      = pre ++ Ev.message "Synced successfully" :: post) :
    ∀ e ∈ post, isHandshakeAct e = false := by
  by_cases hpn : pn = ""
  · subst hpn
    simp [run] at h
    have hm : Ev.message "Synced successfully"
        ∈ ([Ev.errorN "No port name specified"] : List Ev) := by
      rw [h]; simp
    simp at hm
  · cases ok with
    | false =>
      simp only [run, if_neg hpn] at h
      simp at h
      have hm : Ev.message "Synced successfully"
          ∈ [Ev.setPortName pn, Ev.setBaudRate 19200, Ev.openPort,
             Ev.errorN (openFailMsg pn ec)] := by
        rw [h]; simp
      simp at hm
    | true =>
      rw [run_shape pn ec env f1 f2 hpn] at h
      cases hsync : (hsLoop env f1 0 0 false).exitSynced with
      | none =>
        rw [hsync] at h
        simp at h
        have hm : Ev.message "Synced successfully"
            ∈ pre ++ Ev.message "Synced successfully" :: post := by simp
        rw [← h] at hm
        simp at hm
        exact absurd rfl (hsEvOK_not_sync _ (hs_all_ok env f1 0 0 false _ hm))
      | some b =>
        rw [hsync] at h
        have hnotB : Ev.message "Synced successfully"
            ∉ (writeLoop env f2 (hsLoop env f1 0 0 false).qF 0).1
              ++ (if (writeLoop env f2 (hsLoop env f1 0 0 false).qF 0).2 then
                    [Ev.closePort]
                  else []) := by
          apply sync_msg_not_after
          split <;> simp
        obtain ⟨-, hpost⟩ :=
          mem_split_unique (sync_msg_not_before env pn f1) hnotB h
        subst hpost
        intro e he
        rcases List.mem_append.mp he with h1 | h2
        · exact wlEvOK_no_hs e (wl_all_ok env f2 _ 0 e h1)
        · revert h2
          split <;> intro h2 <;> simp at h2
          subst h2
          rfl

/-- Witness for C7 at Scenario A: in the concrete run of `envA` the suffix
after "Synced successfully" is one write cycle; its payload write, a
concrete element of that suffix, is not a handshake action. -/
theorem c7_witness : isHandshakeAct (Ev.writePayload [1, 2] true) = false :=
  c7_no_handshake_after_sync "COM1" true 0 envA 3 1
    [Ev.setPortName "COM1", Ev.setBaudRate 19200, Ev.openPort,
     Ev.message "Serial port opened", Ev.message "Synchronizing hardware",
     Ev.readQuit false,
     Ev.clearPort, Ev.probe 85, Ev.waitReady 100 false, Ev.readHS,
     Ev.message "Handshake stage 1 complete",
     Ev.clearPort, Ev.probe 65, Ev.waitReady 100 false, Ev.readHS,
     Ev.message "Handshake stage 2 complete",
     Ev.clearPort, Ev.probe 13, Ev.waitReady 100 false, Ev.readHS,
     Ev.message "Handshake stage 3 complete",
     Ev.readQuit false]
    [Ev.readQuit false, Ev.lockAcq, Ev.writePayload [1, 2] true,
     Ev.lockRel, Ev.waitReady 40 false, Ev.readAllPort, Ev.writeComplete]
    (by rfl) (Ev.writePayload [1, 2] true) (by decide)

/-! ## A generic traversal of the whole run trace -/

/-- A predicate true on the fixed setup/teardown events, on every
handshake-loop event and on every write-loop event holds on everything the
run emits. -/
theorem run_all (pn : String) (ok : Bool) (ec : Nat) (env : Env)
    (f1 f2 : Nat) (P : Ev → Bool)
    (h1 : P (Ev.setPortName pn) = true)
    (h2 : P (Ev.setBaudRate 19200) = true)
    (h3 : P Ev.openPort = true)
    (h4 : P (Ev.message "Serial port opened") = true)
    (h5 : P (Ev.message "Synchronizing hardware") = true)
    (h6 : P (Ev.errorN "No port name specified") = true)
    (h7 : P (Ev.errorN (openFailMsg pn ec)) = true)
    (h8 : P (Ev.message "Synced successfully") = true)
    (h9 : P Ev.closePort = true)
    (hhs : ∀ e, hsEvOK e = true → P e = true)
    (hwl : ∀ e, wlEvOK e = true → P e = true) :
    ∀ e ∈ (run pn ok ec env f1 f2).1, P e = true := by
  by_cases hpn : pn = ""
  · subst hpn
    intro e he
    simp [run] at he
    subst he
    exact h6
  · cases ok with
    | false =>
      intro e he
      simp [run, hpn] at he
      rcases he with rfl | rfl | rfl | rfl <;> assumption
    | true =>
      intro e he
      rw [run_shape pn ec env f1 f2 hpn] at he
      rcases List.mem_append.mp he with hA | hB
      · rcases List.mem_append.mp hA with hL | hH
        · simp at hL
          rcases hL with rfl | rfl | rfl | rfl | rfl <;> assumption
        · exact hhs e (hs_all_ok env f1 0 0 false e hH)
      · revert hB
        cases (hsLoop env f1 0 0 false).exitSynced with
        | none => intro hB; simp at hB
        | some b =>
          intro hB
          rcases List.mem_cons.mp hB with rfl | hB2
          · exact h8
          · rcases List.mem_append.mp hB2 with hW | hC
            · exact hwl e (wl_all_ok env f2 _ 0 e hW)
            · revert hC
              split <;> intro hC <;> simp at hC
              subst hC
              exact h9

/-! ## C10: the fixed line rate is 19200 -/

/-- "Every baud-rate configuration uses 19200." -/
def baudOK : Ev → Bool
  | Ev.setBaudRate r => r == 19200
  | _ => true

/-- Handshake events never configure a baud rate. -/
theorem hsEvOK_baud (e : Ev) (h : hsEvOK e = true) : baudOK e = true := by
  cases e <;> simp_all [hsEvOK, baudOK]

/-- Write-loop events never configure a baud rate. -/
theorem wlEvOK_baud (e : Ev) (h : wlEvOK e = true) : baudOK e = true := by
  cases e <;> simp_all [wlEvOK, baudOK]

/-- C10: every baud rate the worker ever configures is exactly 19200, and
whenever the run reaches the open attempt, the trace begins with setting
the port name, then the 19200 baud configuration, then the open — so the
line is configured to 19200 before opening, in every session. -/
theorem c10_fixed_baud (pn : String) (ok : Bool) (ec : Nat) (env : Env)
    (f1 f2 : Nat) :
    (∀ r, Ev.setBaudRate r ∈ (run pn ok ec env f1 f2).1 → r = 19200) ∧
    (Ev.openPort ∈ (run pn ok ec env f1 f2).1 →
      ∃ rest, (run pn ok ec env f1 f2).1
        = Ev.setPortName pn :: Ev.setBaudRate 19200 :: Ev.openPort :: rest) := by
  constructor
  · intro r hr
    have hb := run_all pn ok ec env f1 f2 baudOK rfl (by decide) rfl rfl rfl
      rfl rfl rfl rfl hsEvOK_baud wlEvOK_baud _ hr
    simpa [baudOK] using hb
  · intro hop
    by_cases hpn : pn = ""
    · subst hpn
      simp [run] at hop
    · cases ok with
      | false => exact ⟨[Ev.errorN (openFailMsg pn ec)], by simp [run, hpn]⟩
      | true =>
        refine ⟨[Ev.message "Serial port opened",
                 Ev.message "Synchronizing hardware"]
            ++ (hsLoop env f1 0 0 false).evs
            ++ (match (hsLoop env f1 0 0 false).exitSynced with
                | none => []
                | some _ =>
                  Ev.message "Synced successfully"
                    :: ((writeLoop env f2 (hsLoop env f1 0 0 false).qF 0).1
                      ++ (if (writeLoop env f2
                              (hsLoop env f1 0 0 false).qF 0).2 then
                            [Ev.closePort]
                          else []))), ?_⟩
        rw [run_shape pn ec env f1 f2 hpn]
        simp

/-- Witness for C10: the concrete run of `envQ` opens the port, and its
trace indeed begins with the port name, the 19200 baud configuration and
the open. -/
theorem c10_witness :
    ∃ rest, (run "COM1" true 0 envQ 1 1).1
      = Ev.setPortName "COM1" :: Ev.setBaudRate 19200 :: Ev.openPort :: rest :=
  (c10_fixed_baud "COM1" true 0 envQ 1 1).2 (by decide)

/-! ## C9: which accesses hold the mutex -/

/-- C9 is false on the code: the worker's loop conditions read the shared
stop flag `m_quit` without holding `m_mutex` — here, concretely, in the run
of `envQ` — so not every access to the Payload or the StopFlag holds the
lock. -/
theorem c9_counterexample :
    Ev.readQuit false ∈ (run "COM1" true 0 envQ 1 1).1 ∧
    isStopAccess (Ev.readQuit false) = true ∧
    evLocked (Ev.readQuit false) = false :=
  ⟨by decide, rfl, rfl⟩

/-- Handshake events obey the locking discipline the code actually
follows. -/
theorem hsEvOK_disc (e : Ev) (h : hsEvOK e = true) :
    lockDiscipline e = true := by
  cases e <;>
    simp_all [hsEvOK, lockDiscipline, isPayloadAccess, isStopWrite,
      isBlockingWait, isReadQuitEv, evLocked]

/-- Write-loop events obey the locking discipline the code actually
follows. -/
theorem wlEvOK_disc (e : Ev) (h : wlEvOK e = true) :
    lockDiscipline e = true := by
  cases e <;>
    simp_all [wlEvOK, lockDiscipline, isPayloadAccess, isStopWrite,
      isBlockingWait, isReadQuitEv, evLocked]

/-- C9 amended: every access to the Payload and every *write* of the
StopFlag holds the mutex, and the lock is never held across the blocking
`waitForReadyRead` calls; but the worker's *reads* of the StopFlag (the
loop conditions) are performed without the lock.  (The lock *is* held
across the non-blocking buffered `serial.write(data)`.) -/
theorem c9_amended (pn : String) (ok : Bool) (ec : Nat) (env : Env)
    (f1 f2 : Nat) (v : List Nat) :
    (∀ e ∈ (run pn ok ec env f1 f2).1, lockDiscipline e = true) ∧
    (∀ e ∈ changeData v, lockDiscipline e = true) ∧
    (∀ e ∈ destructorEvs, lockDiscipline e = true) := by
  refine ⟨?_, ?_, ?_⟩
  · exact run_all pn ok ec env f1 f2 lockDiscipline rfl rfl rfl rfl rfl rfl
      rfl rfl rfl hsEvOK_disc wlEvOK_disc
  · intro e he
    simp [changeData] at he
    rcases he with rfl | rfl | rfl | rfl <;> rfl
  · intro e he
    simp [destructorEvs] at he
    rcases he with rfl | rfl | rfl | rfl | rfl <;> rfl

/-- Witness for C9 amended: the discipline holds of the concrete unlocked
stop-flag read in the run trace and of the locked payload store in
`changeData`. -/
theorem c9_amended_witness :
    lockDiscipline (Ev.readQuit false) = true ∧
    lockDiscipline (Ev.storeData [1] true) = true :=
  ⟨(c9_amended "COM1" true 0 envQ 1 1 [1]).1 (Ev.readQuit false) (by decide),
   (c9_amended "COM1" true 0 envQ 1 1 [1]).2.1 (Ev.storeData [1] true)
     (by decide)⟩

/-! ## C8: payload updates are never torn and are visible by the next
cycle -/

/-- The value named by a `getLast? = some` equation is in the list. -/
theorem getLast?_mem_of_eq {α : Type} {l : List α} {a : α}
    (h : l.getLast? = some a) : a ∈ l := by
  obtain ⟨hne, heq⟩ :=
    List.mem_getLast?_eq_getLast (l := l) (x := a) (by rw [h]; rfl)
  rw [heq]
  exact List.getLast_mem hne

/-- The invariant holds initially. -/
theorem torn_inv_start (d0 : List Nat) (upds : List (List Nat)) :
    Torn.Inv d0 (Torn.start d0 upds) := by
  refine ⟨?_, ?_, ?_, ?_, ?_⟩ <;> simp [Torn.start, Torn.lastVal]

/-- The invariant is preserved by every interleaved step. -/
theorem torn_inv_step {d0 : List Nat}
    {mix : List Nat → List Nat → List Nat} {c c' : Torn.Conf}
    (hInv : Torn.Inv d0 c) (hs : Torn.Step mix c c') : Torn.Inv d0 c' := by
  obtain ⟨i1, i2, i3, i4, i5⟩ := hInv
  cases hs with
  | oLock v vs hl hp hr =>
    refine ⟨fun _ => rfl, ?_, ?_, ?_, i5⟩
    · intro hw
      have hx := i2 hw
      rw [hl] at hx
      cases hx
    · intro h0
      simp at h0
    · intro h3
      simp at h3
  | oStoreTorn v vs hp hr =>
    refine ⟨fun _ => i1 (by simp [hp]), ?_, ?_, ?_, i5⟩
    · intro hw
      have hx := i2 hw
      rw [i1 (by simp [hp])] at hx
      simp at hx
    · intro h0
      simp at h0
    · intro h3
      simp at h3
  | oStoreFinal v vs hp hr =>
    refine ⟨fun _ => i1 (by simp [hp]), ?_, ?_, ?_, i5⟩
    · intro hw
      have hx := i2 hw
      rw [i1 (by simp [hp])] at hx
      simp at hx
    · intro h0
      simp at h0
    · intro _
      exact ⟨v, vs, hr, rfl⟩
  | oUnlock v vs hp hr =>
    refine ⟨?_, ?_, ?_, ?_, ?_⟩
    · intro h0
      exact absurd rfl h0
    · intro hw
      have hx := i2 hw
      rw [i1 (by simp [hp])] at hx
      simp at hx
    · intro _
      obtain ⟨v2, vs2, hr2, hd⟩ := i4 hp
      rw [hr] at hr2
      obtain ⟨rfl, rfl⟩ := List.cons.inj hr2
      simp [Torn.lastVal, List.getLast?_concat, hd]
    · intro h3
      simp at h3
    · intro o ho
      rcases i5 o ho with rfl | hd
      · exact Or.inl rfl
      · exact Or.inr (List.mem_append_left _ hd)
  | wLock hl hw0 =>
    refine ⟨?_, fun _ => rfl, i3, i4, i5⟩
    · intro h0
      have hx := i1 h0
      rw [hl] at hx
      cases hx
  | wRead hw =>
    refine ⟨i1, fun _ => i2 (by simp [hw]), i3, i4, ?_⟩
    · intro o ho
      rcases List.mem_append.mp ho with ho2 | ho2
      · exact i5 o ho2
      · simp at ho2
        subst ho2
        have hlw := i2 (by simp [hw])
        have hop : c.ophase = 0 := by
          by_contra hne
          have hx := i1 hne
          rw [hx] at hlw
          simp at hlw
        have hd := i3 hop
        unfold Torn.lastVal at hd
        cases hgl : c.done.getLast? with
        | none => rw [hgl] at hd; simp at hd; exact Or.inl hd
        | some a =>
          rw [hgl] at hd
          simp at hd
          subst hd
          exact Or.inr (getLast?_mem_of_eq hgl)
  | wUnlock hw =>
    refine ⟨?_, ?_, i3, i4, i5⟩
    · intro h0
      have hx := i1 h0
      have h2 := i2 (by simp [hw])
      rw [hx] at h2
      simp at h2
    · intro hw0
      exact absurd rfl hw0

/-- Every reachable configuration satisfies the invariant. -/
theorem torn_reachable_inv (d0 : List Nat)
    (mix : List Nat → List Nat → List Nat) (upds : List (List Nat))
    (c : Torn.Conf) (h : Torn.Reachable d0 mix upds c) : Torn.Inv d0 c := by
  induction h with
  | base => exact torn_inv_start d0 upds
  | step hr hs ih => exact torn_inv_step ih hs

/-- C8: in every interleaving of `changeData` calls with the write loop
allowed by the mutex, every payload value the write loop reads is either
the initial payload or the *complete* argument of some completed
`changeData` — never the torn mixture — and at the moment the loop holds
the lock to read, the value is exactly the most recent completed update,
so an update completed before a cycle's lock acquisition is visible to
that cycle. -/
theorem c8_no_torn_payload (d0 : List Nat)
    (mix : List Nat → List Nat → List Nat) (upds : List (List Nat))
    (c : Torn.Conf) (h : Torn.Reachable d0 mix upds c) :
    (∀ o ∈ c.obs, o = d0 ∨ o ∈ c.done) ∧
    (c.wphase = 1 → c.data = Torn.lastVal d0 c.done) := by
  obtain ⟨i1, i2, i3, i4, i5⟩ := torn_reachable_inv d0 mix upds c h
  refine ⟨i5, ?_⟩
  intro hw
  have hlw := i2 (by simp [hw])
  have hop : c.ophase = 0 := by
    by_contra hne
    have hx := i1 hne
    rw [hx] at hlw
    simp at hlw
  exact i3 hop

/-- Witness for C8 at Scenario D: initial payload `[1, 2]`, one concurrent
`changeData [9, 9, 9]` fully interleaved before the worker's read; after
owner lock/torn-store/final-store/unlock and worker lock, the theorem
yields that the value the worker is about to read under the lock is the
complete argument of the completed update — and after the read, the
recorded observation is a complete value, never the mixture. -/
theorem c8_witness :
    (([9, 9, 9] : List Nat) = [1, 2]
      ∨ ([9, 9, 9] : List Nat) ∈ ([[9, 9, 9]] : List (List Nat))) ∧
    ([9, 9, 9] : List Nat) = Torn.lastVal [1, 2] [[9, 9, 9]] := by
  have h0 : Torn.Reachable [1, 2] Torn.mixC [[9, 9, 9]]
      (Torn.start [1, 2] [[9, 9, 9]]) := Torn.Reachable.base
  have h1 := Torn.Reachable.step h0
    (Torn.Step.oLock _ [9, 9, 9] [] rfl rfl rfl)
  have h2 := Torn.Reachable.step h1
    (Torn.Step.oStoreTorn _ [9, 9, 9] [] rfl rfl)
  have h3 := Torn.Reachable.step h2
    (Torn.Step.oStoreFinal _ [9, 9, 9] [] rfl rfl)
  have h4 := Torn.Reachable.step h3
    (Torn.Step.oUnlock _ [9, 9, 9] [] rfl rfl)
  have h5 := Torn.Reachable.step h4 (Torn.Step.wLock _ rfl rfl)
  have h6 := Torn.Reachable.step h5 (Torn.Step.wRead _ rfl)
  constructor
  · exact (c8_no_torn_payload [1, 2] Torn.mixC [[9, 9, 9]] _ h6).1
      [9, 9, 9] (by simp)
  · exact (c8_no_torn_payload [1, 2] Torn.mixC [[9, 9, 9]] _ h5).2 rfl

end SerialPortWriter
